import Mathlib

/-!
Verification of the hflav-python-library schema-resolution core.

This file is a shallow embedding, in Lean 4, of the parts of the repository
that the checked claims are about:

* the chain-of-responsibility handlers
  (`conversors/zenodo_schema_handler.py`, `conversors/gitlab_schema_handler.py`,
   `conversors/template_schema_handler.py`, wired head-to-tail as in
   `container.py`: Zenodo -> GitLab -> TemplateInference);
* the GitLab client (`source/source_gitlab_client.py`):
  repository-tree search, tag lookup, content fetch and JSON parse;
* the version-tag heuristic (`GitlabSchemaHandler._try_to_get_schema_version`);
* the dynamic pydantic conversor (`conversors/dynamic_conversor.py`):
  `from_json`, `_infer_types`, `create_instance`;
* the Zenodo client (`source/source_zenodo_requests.py`):
  `get_correct_template_by_date` and `get_file_by_id`;
* the `Template` model construction (`models/models.py`).

Modelling conventions:
* JSON documents are the inductive `Json` below; JSON numbers are restricted
  to integers (no claim involves floating point values).
* Python exceptions are the inductive `PyError`.  Only the two custom
  exceptions `NoSchemaFoundInsideGitlabRepository` and `NoVersionTagFound`
  define a `message` attribute (`exceptions/source_exceptions.py`); built-in
  exceptions such as `ValueError` do not, and accessing `e.message` on them
  raises `AttributeError` (Python 3 semantics).
* External I/O performed by collaborators (downloads, file reads, the GitLab
  API) is abstracted into an environment record `ChainEnv` whose fields
  return the outcome of each operation; handlers record the outward calls
  they perform in a `Call` trace so that claims of the form "no download
  happens" are provable.
* String scanning from the source is modelled on `List Char` with
  executable, structurally recursive functions mirroring the Python string
  operations used (`in`, `split`, `strip`).
-/

/-- JSON values.  Objects are ordered association lists with distinct keys,
mirroring Python `dict` insertion order.  Numbers are restricted to integers:
no claim exercises floating point values. -/
inductive Json where
  | null : Json
  | bool : Bool → Json
  | int : Int → Json
  | str : String → Json
  | arr : List Json → Json
  | obj : List (String × Json) → Json

/-- Python exceptions relevant to the embedded code.  The constructors carry
the information the code reads back from the exception object.  Only the
repository's custom exceptions define a `message` attribute. -/
inductive PyError where
  /-- `NoSchemaFoundInsideGitlabRepository` (custom, has `.message`). -/
  | noSchemaFound (message : String)
  /-- `NoVersionTagFound` (custom, has `.message`). -/
  | noVersionTag (message : String)
  /-- built-in `ValueError`; its argument is not a `message` attribute. -/
  | valueError (arg : String)
  /-- built-in `TypeError`. -/
  | typeError (arg : String)
  /-- built-in `AttributeError`. -/
  | attributeError (arg : String)
  /-- the bare `Exception` raised by `TemplateSchemaHandler.handle`. -/
  | exhausted (arg : String)
  /-- domain `DataAccessException`. -/
  | dataAccess (message : String)
  /-- domain `DataNotFoundException`. -/
  | dataNotFound (message : String)
  /-- pydantic `ValidationError`. -/
  | validationError (arg : String)
  /-- `requests` HTTP-layer error (`raise_for_status`). -/
  | httpError (arg : String)
deriving DecidableEq, Repr

/-- Reading the `message` attribute of a caught exception: only the custom
source exceptions (and the domain exceptions) define one; on built-in
exceptions the access itself raises `AttributeError`. -/
def PyError.message? : PyError → Option String
  | .noSchemaFound m => some m
  | .noVersionTag m => some m
  | .dataAccess m => some m
  | .dataNotFound m => some m
  | _ => none

/-- A file reference as the handlers consume it (`File` model: a `name` and a
download location). -/
structure FileRef where
  name : String
  download_url : String
deriving DecidableEq, Repr

/-- The template descriptor as consumed by the three handlers and their unit
tests: `rec_id` plus the two capability markers `jsonschema` and
`jsontemplate` (`None` encoded as `Option`).  `can_handle` tests Python
truthiness of these attributes, i.e. `Option.isSome`. -/
structure Template where
  rec_id : Int
  jsonschema : Option FileRef
  jsontemplate : Option FileRef
deriving DecidableEq, Repr

/-- Outward calls a handler can perform on its collaborators: a Zenodo file
download (`source.download_file_by_id_and_filename`) or a GitLab schema fetch
(`gitlab_source.get_schema_inside_repository`). -/
inductive Call where
  | download (id : Int) (filename : String)
  | gitlabFetch (version : String)
deriving DecidableEq, Repr

/-- Environment of collaborator outcomes for one `handle` invocation.
Each field abstracts one external operation the handlers perform. -/
structure ChainEnv where
  /-- `source.download_file_by_id_and_filename(id, filename)`: local path of
  the downloaded file, or the exception it raises. -/
  download : Int → String → Except PyError String
  /-- `open(path)` followed by `json.load`: parsed document or exception. -/
  readJson : String → Except PyError Json
  /-- `gitlab_source.get_schema_inside_repository(version)`. -/
  gitlab : String → Except PyError Json
  /-- `conversor.generate_instance_from_schema_and_data(schema, data_path)`:
  the generated dynamic instance, abstracted as a `Json` value. -/
  conv : Json → String → Except PyError Json
  /-- `conversor.generate_json_schema(template_path)`. -/
  genSchema : String → Except PyError Json
  /-- `readlines()` of the data file at a path (for the version-tag scan). -/
  dataLines : String → List String

/-- Python `str.split(sep)` for a one-character separator, on `List Char`. -/
def splitOnChar (c : Char) : List Char → List (List Char)
  | [] => [[]]
  | x :: xs =>
    if x = c then [] :: splitOnChar c xs
    else
      match splitOnChar c xs with
      | [] => [[x]]
      | g :: gs => (x :: g) :: gs

/-- Python `sub in s` substring containment, on `List Char`. -/
def containsSub (pat : List Char) : List Char → Bool
  | [] => pat.isEmpty
  | l@(_ :: rest) => pat.isPrefixOf l || containsSub pat rest

/-- Strip every leading and trailing character belonging to `cs`
(Python `str.strip(chars)`). -/
def trimCharsL (cs : List Char) (l : List Char) : List Char :=
  ((l.dropWhile (fun ch => cs.contains ch)).reverse.dropWhile
    (fun ch => cs.contains ch)).reverse

/-- The whitespace characters stripped by Python's bare `str.strip()`. -/
def pythonWhitespace : List Char :=
  [' ', '\t', '\n', '\x0d', '\x0b', '\x0c']

/-- One line of `GitlabSchemaHandler._try_to_get_schema_version`'s scan is a
hit when it contains the sentinel substring `"schema"` and splits on `':'`
into exactly two parts. -/
def sentinelLine (line : String) : Bool :=
  containsSub "schema".toList line.toList &&
    (splitOnChar ':' line.toList).length == 2

/-- The tag extracted from a hit line: the second `':'`-part, stripped of
whitespace and then of double quotes and commas
(`parts[1].strip().strip('",')`). -/
def extractVersion (line : String) : String :=
  String.mk (trimCharsL ['"', ','] (trimCharsL pythonWhitespace
    ((splitOnChar ':' line.toList).getD 1 [])))

/-- `GitlabSchemaHandler._try_to_get_schema_version`: scan the data file's
lines; a line containing `"schema"` that splits on `':'` into exactly two
parts yields the stripped second part; a sentinel line with a different
number of parts is skipped; if no line hits, the baseline tag is `"main"`. -/
def try_to_get_schema_version : List String → String
  | [] => "main"
  | line :: rest =>
    if containsSub "schema".toList line.toList then
      if (splitOnChar ':' line.toList).length == 2 then extractVersion line
      else try_to_get_schema_version rest
    else try_to_get_schema_version rest

/-- Membership of an exception in the `except (ValueError,
NoSchemaFoundInsideGitlabRepository, NoVersionTagFound)` clause of
`GitlabSchemaHandler.handle`. -/
def caughtByGitlabExcept : PyError → Bool
  | .valueError _ => true
  | .noSchemaFound _ => true
  | .noVersionTag _ => true
  | _ => false

/-- `TemplateSchemaHandler.handle`: the terminal link.  If `can_handle`
(truthiness of `jsontemplate`) fails it raises the exhaustion error without
any I/O; otherwise it downloads the template file, derives a schema from it
by example and converts the data file.  Returns the result together with the
trace of outward calls. -/
def TemplateSchemaHandler.handle (env : ChainEnv) (t : Template)
    (dataPath : String) : Except PyError Json × List Call :=
  match t.jsontemplate with
  | none =>
    (.error (.exhausted "No handler available for this template and data path"), [])
  | some tf =>
    match env.download t.rec_id tf.name with
    | .error e => (.error e, [.download t.rec_id tf.name])
    | .ok templatePath =>
      match env.genSchema templatePath with
      | .error e => (.error e, [.download t.rec_id tf.name])
      | .ok schema => (env.conv schema dataPath, [.download t.rec_id tf.name])

/-- `GitlabSchemaHandler.handle`: if `can_handle` (truthiness of
`jsontemplate`) fails it forwards to the next handler.  Otherwise it derives
the version tag from the data file, queries the GitLab source and converts on
success.  A raised `ValueError`, `NoSchemaFoundInsideGitlabRepository` or
`NoVersionTagFound` is caught, but the except block first evaluates
`e.message` for logging: on a `ValueError`, which has no `message` attribute,
this raises `AttributeError` instead of forwarding.  Exceptions outside the
except clause propagate. -/
def GitlabSchemaHandler.handle (env : ChainEnv) (t : Template)
    (dataPath : String) : Except PyError Json × List Call :=
  match t.jsontemplate with
  | none => TemplateSchemaHandler.handle env t dataPath
  | some _ =>
    let version := try_to_get_schema_version (env.dataLines dataPath)
    match env.gitlab version with
    | .ok schema => (env.conv schema dataPath, [.gitlabFetch version])
    | .error e =>
      if caughtByGitlabExcept e then
        match e.message? with
        | some _ =>
          let next := TemplateSchemaHandler.handle env t dataPath
          (next.1, .gitlabFetch version :: next.2)
        | none =>
          (.error (.attributeError "ValueError object has no attribute message"),
            [.gitlabFetch version])
      else (.error e, [.gitlabFetch version])

/-- `ZenodoSchemaHandler.handle`: if `can_handle` (truthiness of
`jsonschema`) fails it forwards to the next handler; otherwise it downloads
the embedded schema file from the template's record, parses it and converts
the data file.  Download and parse failures propagate (nothing is caught
here). -/
def ZenodoSchemaHandler.handle (env : ChainEnv) (t : Template)
    (dataPath : String) : Except PyError Json × List Call :=
  match t.jsonschema with
  | none => GitlabSchemaHandler.handle env t dataPath
  | some sf =>
    match env.download t.rec_id sf.name with
    | .error e => (.error e, [.download t.rec_id sf.name])
    | .ok schemaPath =>
      match env.readJson schemaPath with
      | .error e => (.error e, [.download t.rec_id sf.name])
      | .ok schema => (env.conv schema dataPath, [.download t.rec_id sf.name])

/-- The chain as wired by `Container.handler_schema_chain`:
Zenodo -> GitLab -> TemplateInference, entered at the Zenodo handler. -/
def handler_schema_chain (env : ChainEnv) (t : Template) (dataPath : String) :
    Except PyError Json × List Call :=
  ZenodoSchemaHandler.handle env t dataPath

/-- Claim C8: for a template with neither capability marker present, the
chain's handle raises the exhaustion error ("no handler available") and
performs zero download calls on the source collaborator. -/
theorem claim_C8_exhaustion (env : ChainEnv) (rid : Int) (dataPath : String) :
    handler_schema_chain env ⟨rid, none, none⟩ dataPath =
      (.error (.exhausted "No handler available for this template and data path"),
        []) := by
  rfl

/-- An entry of a GitLab repository-tree listing: a subdirectory (type
`"tree"`, with its own listing materialized) or a file (type `"blob"`). -/
inductive RItem where
  | dir (name : String) (path : String) (entries : List RItem)
  | blob (name : String) (path : String)
deriving Repr

/-- `SourceGitlabClient._search_schema`: walk the listing in order.  On the
first `"tree"` entry, return the result of recursing into that subdirectory
(the `return` aborts the loop, so later siblings are never examined).  A
`"blob"` entry whose name ends in `".schema"` is returned; other blobs are
skipped.  Falling off the end of the listing returns `None`. -/
def search_schema : List RItem → Option (String × String)
  | [] => none
  | .dir _ _ entries :: _ => search_schema entries
  | .blob name path :: rest =>
    if name.toList.reverse.take 7 = ".schema".toList.reverse then
      some (name, path)
    else search_schema rest

/-- The content stored for a repository file at a given ref: either
well-formed JSON or text that `json.loads` rejects. -/
inductive FileContent where
  | jsonOk (j : Json)
  | malformed (raw : String)

/-- The GitLab repository as the client observes it: the materialized
repository tree, the set of existing tag names, and the file content at
`(path, ref)`.  API-transport failures (which `_search_schema` converts to
`NoSchemaFoundInsideGitlabRepository` and `_get_file_content` propagates) are
not modelled here; handler-level theorems inject them through
`ChainEnv.gitlab` directly. -/
structure GitlabRepo where
  tree : List RItem
  tags : List String
  content : String → String → FileContent

/-- `SourceGitlabClient.get_schema_inside_repository`: search the tree for a
schema file; when the search returns `None` the subscript `schema["path"]`
raises `TypeError`.  Then resolve the tag (`NoVersionTagFound` when absent),
fetch the content at that ref and parse it (`ValueError` on malformed
JSON). -/
def get_schema_inside_repository (repo : GitlabRepo) (tagVersion : String) :
    Except PyError Json :=
  match search_schema repo.tree with
  | none => .error (.typeError "NoneType object is not subscriptable")
  | some item =>
    if repo.tags.contains tagVersion then
      match repo.content item.2 tagVersion with
      | .jsonOk j => .ok j
      | .malformed _ => .error (.valueError "Invalid JSON in schema file")
    else
      .error (.noVersionTag ("Tag " ++ tagVersion ++
        " not found in the GitLab repository"))

/-- Claim C10: when the first entry of a listing is a subdirectory, the
search equals the search of that subdirectory alone — later siblings are
never examined — and concretely a `.schema` blob listed after such a
subdirectory is never found: the search returns `None` rather than raising. -/
theorem claim_C10_search_first_subdir
    (n p : String) (entries rest : List RItem) :
    search_schema (.dir n p entries :: rest) = search_schema entries ∧
      search_schema [.dir "docs" "docs" [.blob "README.md" "docs/README.md"],
        .blob "data.schema" "data.schema"] = none := by
  constructor
  · rw [search_schema]
  · simp [search_schema]

/-- Claim C9: the version-tag derivation is a plain line scan: the first line
containing `"schema"` that splits on `':'` into exactly two parts yields the
tag (second part stripped of whitespace, double quotes and commas); when no
line hits in that form, the result is the baseline tag `"main"`. -/
theorem claim_C9_version_tag_scan (lines : List String) :
    try_to_get_schema_version lines =
      (match lines.find? sentinelLine with
       | some line => extractVersion line
       | none => "main") := by
  induction lines with
  | nil => rfl
  | cons line rest ih =>
    by_cases hc : containsSub "schema".toList line.toList = true
    · by_cases hl : ((splitOnChar ':' line.toList).length == 2) = true
      · have hs : sentinelLine line = true := by
          rw [sentinelLine, Bool.and_eq_true]; exact ⟨hc, hl⟩
        rw [List.find?_cons_of_pos _ hs]
        simp only [try_to_get_schema_version, if_pos hc, if_pos hl]
      · have hs : ¬ sentinelLine line = true := by
          rw [sentinelLine, Bool.and_eq_true]; exact fun h => hl h.2
        rw [List.find?_cons_of_neg _ hs]
        simp only [try_to_get_schema_version, if_pos hc, if_neg hl]
        exact ih
    · by_cases hl : ((splitOnChar ':' line.toList).length == 2) = true
      all_goals {
        have hs : ¬ sentinelLine line = true := by
          rw [sentinelLine, Bool.and_eq_true]; exact fun h => hc h.1
        rw [List.find?_cons_of_neg _ hs]
        simp only [try_to_get_schema_version, if_neg hc]
        exact ih
      }

/-- A repository whose tree listing completes without encountering any file
ending in `.schema`. -/
def repoNoSchemaFile : GitlabRepo where
  tree := [.blob "README.md" "README.md"]
  tags := ["main"]
  content := fun _ _ => .malformed ""

/-- Environment whose GitLab collaborator is the embedded client running over
`repoNoSchemaFile`; every other collaborator succeeds. -/
def envNoSchemaFile : ChainEnv where
  download := fun _ filename => .ok ("/tmp/" ++ filename)
  readJson := fun _ => .ok (Json.obj [])
  gitlab := get_schema_inside_repository repoNoSchemaFile
  conv := fun _ _ => .ok (Json.obj [("k", Json.str "v")])
  genSchema := fun _ => .ok (Json.obj [])
  dataLines := fun _ => []

/-- A template with only the template-file marker, as in the GitLab
fall-through scenarios. -/
def tmplOnlyTemplate : Template := ⟨42, none, some ⟨"t.json", "u"⟩⟩

/-- Claim C2 (failing case): when the repository-tree traversal completes
without encountering any file ending in `.schema`, `_search_schema` returns
`None`, `get_schema_inside_repository` evaluates `None["path"]` raising
`TypeError`, and the GitLab handler — whose except clause does not cover
`TypeError` — propagates it instead of advancing, even though the next
handler would have succeeded on the same inputs. -/
theorem claim_C2_no_schema_file_propagates :
    handler_schema_chain envNoSchemaFile tmplOnlyTemplate "data.json" =
      (.error (.typeError "NoneType object is not subscriptable"),
        [.gitlabFetch "main"]) ∧
    (TemplateSchemaHandler.handle envNoSchemaFile tmplOnlyTemplate
        "data.json").1 = .ok (Json.obj [("k", Json.str "v")]) := by
  constructor
  · simp [handler_schema_chain, ZenodoSchemaHandler.handle,
      GitlabSchemaHandler.handle, envNoSchemaFile, tmplOnlyTemplate,
      try_to_get_schema_version, get_schema_inside_repository,
      repoNoSchemaFile, search_schema, caughtByGitlabExcept]
  · rfl

/-- Claim C1: with both capability markers present and an embedded-schema
download and parse that succeed, the chain returns the conversion of the
embedded schema, and its call trace is exactly the one schema download: no
GitLab fetch and no template-file download occur. -/
theorem claim_C1_embedded_schema_first (env : ChainEnv) (t : Template)
    (dataPath : String) (sf tf : FileRef) (p : String) (s : Json)
    (hschema : t.jsonschema = some sf)
    (htmpl : t.jsontemplate = some tf)
    (hdl : env.download t.rec_id sf.name = .ok p)
    (hread : env.readJson p = .ok s) :
    handler_schema_chain env t dataPath =
      (env.conv s dataPath, [.download t.rec_id sf.name]) := by
  simp [handler_schema_chain, ZenodoSchemaHandler.handle, hschema, hdl, hread]

/-- Environment for the C1 witness: embedded-schema download and parse
succeed and the conversor produces a concrete instance. -/
def envEmbeddedOk : ChainEnv where
  download := fun _ fname => .ok ("/tmp/" ++ fname)
  readJson := fun _ => .ok (Json.obj [("type", Json.str "object")])
  gitlab := fun _ =>
    .error (.noSchemaFound "No schema found inside the GitLab repository")
  conv := fun _ _ => .ok (Json.obj [("k", Json.str "v2")])
  genSchema := fun _ => .ok (Json.obj [])
  dataLines := fun _ => []

/-- A template carrying both capability markers. -/
def tmplBothMarkers : Template :=
  ⟨7, some ⟨"schema.json", "us"⟩, some ⟨"template.json", "ut"⟩⟩

/-- Witness for claim C1 at a concrete template and environment. -/
theorem claim_C1_witness :
    handler_schema_chain envEmbeddedOk tmplBothMarkers "data.json" =
      (.ok (Json.obj [("k", Json.str "v2")]), [.download 7 "schema.json"]) :=
  claim_C1_embedded_schema_first envEmbeddedOk tmplBothMarkers "data.json"
    ⟨"schema.json", "us"⟩ ⟨"template.json", "ut"⟩ "/tmp/schema.json"
    (Json.obj [("type", Json.str "object")]) rfl rfl rfl rfl

/-- Claim C7 (amended): with the embedded-schema marker absent and the
template marker present, when the GitLab retrieval raises one of the two
custom not-found errors — `NoSchemaFoundInsideGitlabRepository` or
`NoVersionTagFound`, the ones that carry a `message` attribute — the chain
falls through to the template-inference handler and returns exactly its
result (a malformed-JSON `ValueError` does not fall through: see the
counterexample). -/
theorem claim_C7_notfound_falls_through (env : ChainEnv) (t : Template)
    (dataPath : String) (tf : FileRef) (e : PyError) (m : String)
    (hschema : t.jsonschema = none)
    (htmpl : t.jsontemplate = some tf)
    (hgl : env.gitlab (try_to_get_schema_version (env.dataLines dataPath)) =
      .error e)
    (hnf : e = .noSchemaFound m ∨ e = .noVersionTag m) :
    handler_schema_chain env t dataPath =
      ((TemplateSchemaHandler.handle env t dataPath).1,
        .gitlabFetch (try_to_get_schema_version (env.dataLines dataPath)) ::
          (TemplateSchemaHandler.handle env t dataPath).2) := by
  rcases hnf with h | h <;> subst h <;>
    simp [handler_schema_chain, ZenodoSchemaHandler.handle,
      GitlabSchemaHandler.handle, hschema, htmpl, hgl, caughtByGitlabExcept,
      PyError.message?]

/-- Environment for the C7 witness: the GitLab source raises
`NoSchemaFoundInsideGitlabRepository`, template download, schema generation
and conversion succeed. -/
def envGitlabNotFound : ChainEnv where
  download := fun _ fname => .ok ("/tmp/" ++ fname)
  readJson := fun _ => .ok (Json.obj [])
  gitlab := fun _ =>
    .error (.noSchemaFound "No schema found inside the GitLab repository")
  conv := fun _ _ => .ok (Json.obj [("k", Json.str "v2")])
  genSchema := fun _ => .ok (Json.obj [("type", Json.str "object")])
  dataLines := fun _ => []

/-- Witness for claim C7 at a concrete template and environment. -/
theorem claim_C7_witness :
    handler_schema_chain envGitlabNotFound tmplOnlyTemplate "data.json" =
      ((TemplateSchemaHandler.handle envGitlabNotFound tmplOnlyTemplate
          "data.json").1,
        .gitlabFetch "main" ::
          (TemplateSchemaHandler.handle envGitlabNotFound tmplOnlyTemplate
            "data.json").2) :=
  claim_C7_notfound_falls_through envGitlabNotFound tmplOnlyTemplate
    "data.json" ⟨"t.json", "u"⟩ _ "No schema found inside the GitLab repository"
    rfl rfl rfl (Or.inl rfl)

/-- Environment for the C7 counterexample: the GitLab schema content is
malformed JSON, so `get_schema_inside_repository` raises `ValueError`; the
template-inference collaborators would all succeed. -/
def envGitlabMalformed : ChainEnv where
  download := fun _ fname => .ok ("/tmp/" ++ fname)
  readJson := fun _ => .ok (Json.obj [])
  gitlab := fun _ => .error (.valueError "Invalid JSON in schema file")
  conv := fun _ _ => .ok (Json.obj [("k", Json.str "v2")])
  genSchema := fun _ => .ok (Json.obj [("type", Json.str "object")])
  dataLines := fun _ => []

/-- Counterexample to claim C7 as stated: on a malformed-JSON `ValueError`
the chain does not fall through to template inference — the except block's
`e.message` access raises `AttributeError` — even though template inference
would have succeeded on the same inputs. -/
theorem claim_C7_counterexample :
    handler_schema_chain envGitlabMalformed tmplOnlyTemplate "data.json" =
      (.error (.attributeError "ValueError object has no attribute message"),
        [.gitlabFetch "main"]) ∧
    (TemplateSchemaHandler.handle envGitlabMalformed tmplOnlyTemplate
        "data.json").1 = .ok (Json.obj [("k", Json.str "v2")]) :=
  ⟨rfl, rfl⟩

/-- Python `str.endswith(suffix)`. -/
def endsWithStr (suffix s : String) : Bool :=
  suffix.toList.isSuffixOf s.toList

/-- A raw file entry of a Zenodo record JSON as the models read it: its
`key` and its `links.self` value, with the `.get` defaults `""` already
applied (`File.transform_json_data`). -/
structure RawFile where
  key : String
  selfLink : String
deriving DecidableEq, Repr

/-- `File.transform_json_data`: `key` becomes the file's `title`/`name` and
`links.self` its `download_url`. -/
def fileOfRaw (r : RawFile) : FileRef :=
  ⟨r.key, r.selfLink⟩

/-- The `values` mapping read by `Template.transform_json_data` in
`models/models.py`: the keys the validator actually consults (`id`,
`metadata.title`, `metadata.version`, `created`, `updated`, `files`), absent
keys encoded as `none` / `[]`. -/
structure TemplateCtorValues where
  id : Option Int
  metadataTitle : Option String
  metadataVersion : Option String
  created : Option String
  updated : Option String
  files : List RawFile

/-- The output of `Template.transform_json_data`: exactly the six keys it
produces.  Note that no `jsonschema` or `jsontemplate` entry is ever
computed: the only file-derived field is `jsons`, the list of all `.json`
files. -/
structure TemplateTransformed where
  rec_id : Option Int
  title : Option String
  created : Option String
  updated : Option String
  version : Option String
  jsons : List FileRef
deriving DecidableEq, Repr

/-- `Template.transform_json_data` (`models/models.py`): a before-mode
validator recomputing every field from the raw `values` mapping; `jsons`
keeps the files whose key ends in `.json`. -/
def TemplateModel.transform_json_data (v : TemplateCtorValues) :
    TemplateTransformed :=
  { rec_id := v.id
  , title := v.metadataTitle
  , created := v.created
  , updated := v.updated
  , version := v.metadataVersion
  , jsons := (v.files.filter (fun f => endsWithStr ".json" f.key)).map fileOfRaw }

/-- The `Template` pydantic model of `models/models.py`: its declared fields.
Every field is required (none is `Optional`), and there is no `jsonschema` or
`jsontemplate` field. -/
structure TemplateModel where
  rec_id : Int
  title : String
  created : String
  updated : String
  version : String
  jsons : List FileRef
deriving DecidableEq, Repr

/-- pydantic field validation of `Template` after the before-mode validator:
a `None` left by a missing key fails the required `int`/`str`/`datetime`
fields with a `ValidationError`. -/
def TemplateModel.validate (t : TemplateTransformed) :
    Except PyError TemplateModel :=
  match t.rec_id, t.title, t.created, t.updated, t.version with
  | some i, some ti, some c, some u, some ve => .ok ⟨i, ti, c, u, ve, t.jsons⟩
  | _, _, _, _, _ =>
    .error (.validationError "missing required Template fields")

/-- `Template(**values)`: the before-mode transform followed by pydantic
field validation. -/
def TemplateModel.construct (v : TemplateCtorValues) :
    Except PyError TemplateModel :=
  TemplateModel.validate (TemplateModel.transform_json_data v)

/-- Claim C6 (failing case): constructing a `Template` from a record file
listing holding a schema-signalling file (`hflav_data.schema`) and a JSON
file keeps only the `jsons` list, and that list contains only the `.json`
file: the schema-named file is dropped entirely, and the constructed model
has no `jsonschema`/`jsontemplate` capability-marker fields at all (compare
the `TemplateModel` field list with `Template.jsonschema`/`jsontemplate`
consulted by every handler's `can_handle`). -/
theorem claim_C6_markers_not_assigned :
    TemplateModel.construct
      { id := some 42, metadataTitle := some "Template Record",
        metadataVersion := some "1.0",
        created := some "2023-01-01T12:00:00",
        updated := some "2023-01-01T12:00:00",
        files := [⟨"hflav_data.schema", "u1"⟩, ⟨"template.json", "u2"⟩] } =
      .ok ⟨42, "Template Record", "2023-01-01T12:00:00",
        "2023-01-01T12:00:00", "1.0", [⟨"template.json", "u2"⟩]⟩ := by
  rfl

/-- One entry of the versions response `hits.hits` consumed by
`SourceZenodoRequest.get_correct_template_by_date`, reduced to the keys that
call site reads. -/
structure VersionHit where
  metadataTitle : Option String
  metadataVersion : Option String
  created : Option String
  updated : Option String
  files : List RawFile

/-- The `Template(...)` call inside `get_correct_template_by_date`: it passes
the keyword arguments `title`, `created`, `updated`, `version`, `jsons`.
The before-mode validator however re-reads the keys `id`, `metadata` and
`files` — none of which is among those keywords — so `rec_id`, `title` and
`version` collapse to `None`, `jsons` to `[]`, and only `created`/`updated`
survive; pydantic then rejects the `None`s for the required fields. -/
def templateOfVersionHit (h : VersionHit) : Except PyError TemplateModel :=
  TemplateModel.construct
    { id := none, metadataTitle := none, metadataVersion := none,
      created := h.created, updated := h.updated, files := [] }

/-- `SourceZenodoRequest.get_correct_template_by_date`: raise `ValueError`
when the record has no versions link, otherwise build one `Template` per
version hit and return the whole list.  The `date` argument is never read:
no filtering, ordering or `DataNotFoundException` occurs anywhere in the
body. -/
def get_correct_template_by_date (versionsLink : Option String)
    (hits : List VersionHit) (date : Option Nat) :
    Except PyError (List TemplateModel) :=
  match versionsLink with
  | none => .error (.valueError "No versions link found for record")
  | some _ => hits.mapM templateOfVersionHit

/-- Claim C4 (failing): the result of `get_correct_template_by_date` is
independent of the `date` argument; at a concrete input whose only version
postdates the requested date it does not raise `DataNotFoundException` (it
raises pydantic's `ValidationError`, because the `Template(...)` call site
and the before-mode validator disagree about the keyword names); and with an
empty version list and a date it returns an empty list instead of raising. -/
theorem claim_C4_date_ignored :
    (∀ (link : Option String) (hits : List VersionHit) (date : Option Nat),
      get_correct_template_by_date link hits date =
        get_correct_template_by_date link hits none) ∧
    get_correct_template_by_date (some "https://z/versions")
      [{ metadataTitle := some "Template 1", metadataVersion := some "1.0",
         created := some "2023-02-01T12:00:00",
         updated := some "2023-02-01T12:00:00",
         files := [⟨"template.json", "u"⟩] }] (some 0) =
      .error (.validationError "missing required Template fields") ∧
    get_correct_template_by_date (some "https://z/versions") [] (some 5) =
      .ok [] := by
  exact ⟨fun link hits date => rfl, rfl, rfl⟩

/-- One entry of `record["files"]` as `SourceZenodoRequest.get_file_by_id`
reads it: the keys it can consult, each possibly absent. -/
structure ZFileEntry where
  key : Option String
  filename : Option String
  linkDownload : Option String
  linkSelf : Option String
  url : Option String
deriving DecidableEq, Repr

/-- Python truthiness filter for the `or`-chains and the `if filename:`
guard: `None` and the empty string are falsy. -/
def truthyStr : Option String → Option String
  | some s => if s = "" then none else some s
  | none => none

/-- The selection loop of `get_file_by_id`: the first file whose `key` or
`filename` equals the requested name. -/
def findRequested (fname : String) : List ZFileEntry → Option ZFileEntry
  | [] => none
  | f :: rest =>
    if f.key = some fname ∨ f.filename = some fname then some f
    else findRequested fname rest

/-- `SourceZenodoRequest.get_file_by_id`, file-selection and link-resolution
part (the record fetch and the streaming write are abstracted away; the
result is the file that gets downloaded, with the URL used).  With no files
it raises `ValueError`; when the requested filename matches nothing — or no
filename is given — `chosen` stays `None` and the code falls back to
`files[0]`; the URL is `links.download or links.self or file.url`, and a
missing URL raises `ValueError`, not `DataNotFoundException`. -/
def get_file_by_id (files : List ZFileEntry) (filename : Option String) :
    Except PyError (ZFileEntry × String) :=
  match files with
  | [] => .error (.valueError "Record contains no files")
  | first :: _ =>
    let chosen :=
      match truthyStr filename with
      | some fname =>
        match findRequested fname files with
        | some f => f
        | none => first
      | none => first
    match truthyStr chosen.linkDownload with
    | some url => .ok (chosen, url)
    | none =>
      match truthyStr chosen.linkSelf with
      | some url => .ok (chosen, url)
      | none =>
        match truthyStr chosen.url with
        | some url => .ok (chosen, url)
        | none => .error (.valueError "No download link found for file")

/-- Claim C5 (failing case): requesting `b.json` from a record whose only
file is `a.json` does not raise `DataNotFoundException` — the selection falls
back to `files[0]` and happily resolves `a.json`'s own download link, so a
different file than the named one gets downloaded. -/
theorem claim_C5_downloads_other_file :
    get_file_by_id
      [{ key := some "a.json", filename := none, linkDownload := none,
         linkSelf := some "https://z/a.json", url := none }]
      (some "b.json") =
      .ok ({ key := some "a.json", filename := none, linkDownload := none,
             linkSelf := some "https://z/a.json", url := none },
        "https://z/a.json") := by
  rfl

/-- The Python type annotations that `DynamicConversor.from_json` can place
in a field's `Optional[Union[...]]`: the primitive type objects collected by
`_infer_types`, `List[Any]` (empty-list fields), `List[Union[...]]`
(non-empty-list fields) and dynamically created nested pydantic models. -/
inductive PType where
  | pNone
  | pBool
  | pInt
  | pStr
  | pList
  | pDict
  | pAnyList
  | pListOf (items : List PType)
  | pModel (fields : List (String × List PType))

mutual
/-- Structural equality of type annotations (used to model the `set` that
`_infer_types` and the list branch of `_create_model` accumulate into). -/
def beqPType : PType → PType → Bool
  | .pNone, .pNone => true
  | .pBool, .pBool => true
  | .pInt, .pInt => true
  | .pStr, .pStr => true
  | .pList, .pList => true
  | .pDict, .pDict => true
  | .pAnyList, .pAnyList => true
  | .pListOf a, .pListOf b => beqPTypeList a b
  | .pModel a, .pModel b => beqPFields a b
  | _, _ => false

/-- Pointwise `beqPType` on annotation lists. -/
def beqPTypeList : List PType → List PType → Bool
  | [], [] => true
  | a :: as, b :: bs => beqPType a b && beqPTypeList as bs
  | _, _ => false

/-- Pointwise `beqPType` on model field lists. -/
def beqPFields : List (String × List PType) → List (String × List PType) → Bool
  | [], [] => true
  | (n, a) :: as, (m, b) :: bs => n == m && beqPTypeList a b && beqPFields as bs
  | _, _ => false
end

/-- Keep the first occurrence of each annotation, dropping later duplicates:
the `set` accumulated by the source, iterated deterministically in
first-encounter order (union membership — the only thing validation ever
consults — is unaffected by the order a Python `set` would yield). -/
def dedupTypes : List PType → List PType
  | [] => []
  | t :: ts => t :: dedupTypes (ts.filter (fun u => !(beqPType t u)))
termination_by l => l.length
decreasing_by
  simp only [List.length_cons]
  exact Nat.lt_succ_of_le (List.length_filter_le _ _)

mutual
/-- `_collect_types` inside `DynamicConversor._infer_types`: the Python type
of the value, recursing through lists and dict values (a list contributes
`list` plus its items' types; a dict contributes `dict` plus its values'
types). -/
def collectTypes : Json → List PType
  | .null => [.pNone]
  | .bool _ => [.pBool]
  | .int _ => [.pInt]
  | .str _ => [.pStr]
  | .arr xs => .pList :: collectTypesList xs
  | .obj kvs => .pDict :: collectTypesKVs kvs

/-- `_collect_types` over the items of a list value. -/
def collectTypesList : List Json → List PType
  | [] => []
  | x :: xs => collectTypes x ++ collectTypesList xs

/-- `_collect_types` over the values of a dict value. -/
def collectTypesKVs : List (String × Json) → List PType
  | [] => []
  | (_, v) :: rest => collectTypes v ++ collectTypesKVs rest
end

/-- `DynamicConversor._infer_types`: the set of collected types (always
non-empty: every value contributes at least one type). -/
def infer_types (v : Json) : List PType :=
  dedupTypes (collectTypes v)

mutual
/-- The field map built by `_create_model` in `DynamicConversor.from_json`
for a dict template: one field per key, typed by `fieldTypesFor`; every
field is `Optional[...]` with default `None`. -/
def createModelFields : List (String × Json) → List (String × List PType)
  | [] => []
  | (k, v) :: rest => (k, fieldTypesFor v) :: createModelFields rest

/-- The union members of one field's annotation, by the example value's
shape: a dict value yields `Optional[Union[nested_model, NoneType]]`; an
empty list `Optional[List[Any]]`; a non-empty list
`Optional[List[Union[item types]]]`; a primitive `Optional[Union[inferred
types]]`. -/
def fieldTypesFor : Json → List PType
  | .obj sub => [.pModel (createModelFields sub), .pNone]
  | .arr [] => [.pAnyList]
  | .arr (x :: xs) => [.pListOf (dedupTypes (listItemTypes (x :: xs)))]
  | v => infer_types v

/-- The item-type set of a non-empty list field: a dict item contributes a
nested model, any other item its inferred primitive types. -/
def listItemTypes : List Json → List PType
  | [] => []
  | .obj sub :: rest => .pModel (createModelFields sub) :: listItemTypes rest
  | v :: rest => collectTypes v ++ listItemTypes rest
end

/-- `DynamicConversor.from_json`: the main model's fields.  A non-dict
template yields the single-field model `value: Optional[Union[...]]`. -/
def from_json : Json → List (String × List PType)
  | .obj kvs => createModelFields kvs
  | v => [("value", infer_types v)]

/-- Python dict lookup on the modelled JSON object. -/
def lookupField (n : String) : List (String × Json) → Option Json
  | [] => none
  | (k, v) :: rest => if k = n then some v else lookupField n rest

mutual
/-- pydantic acceptance of a value for one annotation.  Lax-mode coercions
(e.g. numeric strings for `int`) are not modelled: no claim exercises them.
A nested model accepts a dict whose provided fields validate; its unknown
keys are ignored (pydantic's default `extra=ignore` configuration, which
`create_model` inherits from `BaseModel`). -/
def pyMatches : PType → Json → Bool
  | .pNone, j => (match j with | .null => true | _ => false)
  | .pBool, j => (match j with | .bool _ => true | _ => false)
  | .pInt, j => (match j with | .int _ => true | _ => false)
  | .pStr, j => (match j with | .str _ => true | _ => false)
  | .pList, j => (match j with | .arr _ => true | _ => false)
  | .pDict, j => (match j with | .obj _ => true | _ => false)
  | .pAnyList, j => (match j with | .arr _ => true | _ => false)
  | .pListOf items, j =>
    (match j with
     | .arr xs => pyAllElems items xs
     | _ => false)
  | .pModel fields, j =>
    (match j with
     | .obj kvs => pyValidateFields fields kvs
     | _ => false)
termination_by t j => (sizeOf t, sizeOf j)

/-- A value is accepted by a union when some member accepts it. -/
def pyAnyMatches : List PType → Json → Bool
  | [], _ => false
  | t :: ts, j => pyMatches t j || pyAnyMatches ts j
termination_by ts j => (sizeOf ts, sizeOf j)

/-- Every element of a list value must be accepted by the item union. -/
def pyAllElems : List PType → List Json → Bool
  | _, [] => true
  | items, x :: xs => pyAnyMatches items x && pyAllElems items xs
termination_by ts xs => (sizeOf ts, sizeOf xs)

/-- Validation of a dict against a model's fields: a provided value must be
`None` (every field is `Optional`) or accepted by the field's union; an
absent field is fine (default `None`); keys of the dict that name no field
are never consulted. -/
def pyValidateFields :
    List (String × List PType) → List (String × Json) → Bool
  | [], _ => true
  | (n, tys) :: rest, kvs =>
    (match lookupField n kvs with
     | none => true
     | some v =>
       (match v with | .null => true | _ => false) || pyAnyMatches tys v)
      && pyValidateFields rest kvs
termination_by fs kvs => (sizeOf fs, sizeOf kvs)
end

/-- `model(**data)`, field by field: an absent field takes the default
`None`; a present value must be `None` or match the union, otherwise
pydantic raises `ValidationError`; keys of `data` that name no model field
are ignored (default `extra=ignore`) and do not appear on the instance.
Values are kept as provided (pydantic would additionally convert nested
dicts into submodel instances; no claim distinguishes that). -/
def buildFields (fields : List (String × List PType))
    (kvs : List (String × Json)) : Except PyError (List (String × Json)) :=
  match fields with
  | [] => .ok []
  | (n, tys) :: rest =>
    match lookupField n kvs with
    | none =>
      match buildFields rest kvs with
      | .ok fs => .ok ((n, Json.null) :: fs)
      | .error e => .error e
    | some v =>
      if (match v with | .null => true | _ => false) || pyAnyMatches tys v then
        match buildFields rest kvs with
        | .ok fs => .ok ((n, v) :: fs)
        | .error e => .error e
      else .error (.validationError n)

/-- `DynamicConversor.create_instance`: instantiate the model with the
loaded data (`model(**loaded_data)`); the loading of dict/string/path inputs
is abstracted to a `Json` document. -/
def create_instance (fields : List (String × List PType)) (data : Json) :
    Except PyError (List (String × Json)) :=
  match data with
  | .obj kvs => buildFields fields kvs
  | _ => .error (.typeError "keyword argument unpacking requires a mapping")

/-- The template example of claim C3. -/
def tmplC3 : Json :=
  Json.obj [("a", Json.int 1), ("b", Json.obj [("c", Json.str "x")])]

/-- Claim C3 (failing case): against the model inferred from the template
example, the data omitting `b` is accepted (with `b` defaulting to `None`) —
and the data carrying the unknown key `z` is accepted as well: `z` is
silently ignored by pydantic's default `extra=ignore` configuration, so no
structural-validation error is raised. -/
theorem claim_C3_unknown_key_accepted :
    create_instance (from_json tmplC3) (Json.obj [("a", Json.int 2)]) =
      .ok [("a", Json.int 2), ("b", Json.null)] ∧
    create_instance (from_json tmplC3)
        (Json.obj [("a", Json.int 2), ("z", Json.int 9)]) =
      .ok [("a", Json.int 2), ("b", Json.null)] := by
  constructor <;>
    simp [tmplC3, from_json, createModelFields, fieldTypesFor, infer_types,
      dedupTypes, collectTypes, create_instance, buildFields, lookupField,
      pyAnyMatches, pyMatches, beqPType]
